import Mathlib

/-!
Verification development for the dagster-uprootclean ingestion pipelines.

Shallow embedding of the two ingestion modules:
* `src/dlt_project/defs/shiphero_bigquery_ingest/loads.py` (orders flow with
  credit throttling) — namespace `Shiphero`;
* `src/dlt_project/defs/applovin/__init__.py` (ad-metrics flow) — namespace
  `Applovin`.

JSON payloads and Python dicts are modelled by the inductive `Value` /
`Dict` types below, with Python dict semantics (`get`, item assignment,
truthiness) made explicit.  Python exceptions become `Except` errors; calls
to `time.sleep` and outgoing HTTP calls are recorded in explicit event
traces; HTTP responses are supplied by oracle functions, so that the control
flow of the source is the only thing under study.  Numeric throttle values
are modelled as exact rationals.
-/

set_option autoImplicit false

namespace Spec2Proof

/-- A JSON-ish value: Python `None`, booleans, numbers, strings, lists and
dicts.  Dicts are insertion-ordered association lists, as in Python. -/
inductive Value where
  | null : Value
  | bool (b : Bool) : Value
  | num (q : ℚ) : Value
  | str (s : String) : Value
  | arr (xs : List Value) : Value
  | obj (fields : List (String × Value)) : Value

/-- A Python dict with string keys (insertion-ordered association list). -/
abbrev Dict := List (String × Value)

/-- Python `d[k]` as a partial lookup: the first binding of key `k`. -/
def dictGet : Dict → String → Option Value
  | [], _ => none
  | (k, v) :: rest, key => if k = key then some v else dictGet rest key

/-- Python `d[k] = v`: replace the binding in place when the key exists,
otherwise append the new binding at the end (insertion order). -/
def dictSet (d : Dict) (key : String) (v : Value) : Dict :=
  match dictGet d key with
  | some _ => d.map (fun p => if p.1 = key then (key, v) else p)
  | none => d ++ [(key, v)]

/-- Python `d.get(k)`: `None` when the key is absent. -/
def pyGet (d : Dict) (key : String) : Value :=
  (dictGet d key).getD Value.null

/-- Python `d.get(k, default)`. -/
def pyGetD (d : Dict) (key : String) (dflt : Value) : Value :=
  (dictGet d key).getD dflt

/-- Python truthiness of a value (`bool(v)`). -/
def truthy : Value → Bool
  | Value.null => false
  | Value.bool b => b
  | Value.num q => decide (q ≠ 0)
  | Value.str s => decide (s ≠ "")
  | Value.arr xs => !xs.isEmpty
  | Value.obj fields => !fields.isEmpty

/-- Python `a or b`: `a` when truthy, otherwise `b`. -/
def pyOr (a b : Value) : Value :=
  if truthy a then a else b

/-- Python `a < b` on strings: lexicographic by code point, a proper
prefix is smaller. -/
def charsLt : List Char → List Char → Bool
  | [], [] => false
  | [], _ :: _ => true
  | _ :: _, [] => false
  | a :: as, b :: bs =>
    if a < b then true else if b < a then false else charsLt as bs

/-- Python `a < b` on strings, on the underlying character lists. -/
def pyStrLt (a b : String) : Bool := charsLt a.data b.data

/-- Python `max(xs)` over a list of strings (first maximal element kept).
Python `max` of an empty list raises; the embedding returns `""` there, and
the one use below is guarded by a non-emptiness check in the source. -/
def pyMaxList : List String → String
  | [] => ""
  | x :: xs => xs.foldl (fun cur it => if pyStrLt cur it then it else cur) x

/-- Model of `dpath.values obj path` for a wildcard-free path (the only form
`process_extensions` uses): the list of values found by walking the dict
keys in `path`, empty when any step is absent or not a dict. -/
def dpathValues : Value → List String → List Value
  | v, [] => [v]
  | Value.obj d, key :: rest =>
    match dictGet d key with
    | some v => dpathValues v rest
    | none => []
  | _, _ :: _ => []

end Spec2Proof

namespace Spec2Proof.Settings

/-- Constant `settings.LINE_ITEMS_COMPLEXITY` (settings.py line 11). -/
def LINE_ITEMS_COMPLEXITY : ℚ := 102

end Spec2Proof.Settings

namespace Spec2Proof.Shiphero

open Spec2Proof

/-- The four values `get_orders_data` returns: the order list extracted at
`data/orders/data/edges/*/node` and the three throttling numbers from the
response extensions.  Supplied by the HTTP oracle. -/
structure OrdersResp where
  orders : List Dict
  complexity : ℚ
  credits : ℚ
  increment_rate : ℚ

/-- The four values `get_order_items` returns for one order id: the
line-items array and the three throttling numbers of that response. -/
structure LineResp where
  data : Value
  complexity : ℚ
  credits : ℚ
  increment_rate : ℚ

/-- Model of `process_extensions` (loads.py lines 27–44): three `dpath.values(...)[0]`
lookups in sequence; an absent path makes the `[0]` index raise
(`IndexError`), modelled as an error result. -/
def process_extensions (extensions : Value) : Except String (Value × Value × Value) :=
  match (dpathValues extensions ["throttling", "estimated_complexity"]).head? with
  | none => Except.error "IndexError"
  | some complexity =>
    match (dpathValues extensions ["throttling", "user_quota", "credits_remaining"]).head? with
    | none => Except.error "IndexError"
    | some credits =>
      match (dpathValues extensions ["throttling", "user_quota", "increment_rate"]).head? with
      | none => Except.error "IndexError"
      | some increment_rate => Except.ok (complexity, credits, increment_rate)

/-- The list comprehension `[ x["updated_at"] for x in orders ]`
(loads.py line 133).  A missing key raises `KeyError`; a non-string value
would make the later `max` comparison raise, so the embedding requires the
ISO-timestamp strings the GraphQL schema delivers. -/
def getDates : List Dict → Except String (List String)
  | [] => Except.ok []
  | o :: rest =>
    match dictGet o "updated_at" with
    | some (Value.str s) =>
      match getDates rest with
      | Except.ok ds => Except.ok (s :: ds)
      | Except.error e => Except.error e
    | some _ => Except.error "TypeError"
    | none => Except.error "KeyError"

/-- The per-order line-item loop of `query_shiphero` (loads.py lines
142–152), threading the tracked `(complexity, credits, increment_rate)`
through successive `get_order_items` responses.  `lineFetch` is the HTTP
oracle keyed by the order id value.  Returns the enriched orders together
with the sleep trace: one entry per line-item call, `some d` when
`time.sleep d` ran before that call (`d = complexity/increment_rate*1.5`),
`none` otherwise. -/
def lineLoop (lineFetch : Value → LineResp) :
    List Dict → ℚ → ℚ → ℚ → Except String (List Dict × List (Option ℚ))
  | [], _, _, _ => Except.ok ([], [])
  | o :: rest, complexity, credits, increment_rate =>
    let slept : Option ℚ :=
      if credits < complexity then some (complexity / increment_rate * (3 / 2)) else none
    match dictGet o "id" with
    | none => Except.error "KeyError"
    | some oid =>
      let r := lineFetch oid
      let enriched := dictSet o "line_items" r.data
      match lineLoop lineFetch rest r.complexity r.credits r.increment_rate with
      | Except.error e => Except.error e
      | Except.ok (os, sleeps) => Except.ok (enriched :: os, slept :: sleeps)

/-- Model of `query_shiphero` (loads.py lines 121–154).  The orders fetch is the
oracle value `fetch`; the function returns the enriched order list together
with the sleep trace of the line-item loop.  The two early exits return an
empty list; reaching the loop resets `complexity` to
`settings.LINE_ITEMS_COMPLEXITY` (line 140), discarding the orders query's
reported complexity. -/
def query_shiphero (fetch : OrdersResp) (lineFetch : Value → LineResp) (since : String) :
    Except String (List Dict × List (Option ℚ)) :=
  match fetch.orders with
  | [] => Except.ok ([], [])
  | _ :: _ =>
    match getDates fetch.orders with
    | Except.error e => Except.error e
    | Except.ok dates =>
      if since = pyMaxList dates then Except.ok ([], [])
      else
        lineLoop lineFetch fetch.orders Settings.LINE_ITEMS_COMPLEXITY
          fetch.credits fetch.increment_rate

end Spec2Proof.Shiphero

namespace Spec2Proof.Applovin

open Spec2Proof

/-- The fixed column list of `get_advertiser_data`
(applovin/__init__.py lines 79–104). -/
def columns : List String :=
  ["day", "hour", "campaign", "campaign_id", "ad", "ad_id", "ad_type",
   "ad_creative_type", "creative_set", "creative_set_id", "impressions",
   "clicks", "ctr", "conversions", "cost", "sales", "roas_0d", "roas_7d",
   "chka_0d", "chka_7d", "chka_usd_0d", "chka_usd_7d", "cost_per_chka_0d",
   "cost_per_chka_7d"]

/-- The query parameters of one report call (applovin/__init__.py lines
106–112). -/
structure AdParams where
  api_key : String
  start : String
  end_ : String
  format : String
  cols : String
deriving DecidableEq

/-- The `params` dict built by `get_advertiser_data` for a given key and
window. -/
def mkParams (api_key start_date end_date : String) : AdParams :=
  ⟨api_key, start_date, end_date, "json", String.intercalate "," columns⟩

/-- One HTTP response of the report endpoint, supplied by the oracle: the
status code, the parsed `Retry-After` header when present, and the parsed
JSON body. -/
structure AdResponse where
  status : ℕ
  retryAfter : Option ℕ
  body : Dict

/-- Observable effects of `get_advertiser_data`: an outgoing HTTP call with
its parameters, or a `time.sleep` of the given number of seconds. -/
inductive AdEvent where
  | call (params : AdParams) : AdEvent
  | sleep (seconds : ℕ) : AdEvent
deriving DecidableEq

/-- Model of `handle_rate_limit` (applovin/__init__.py lines 45–56): on status 429,
sleep `int(headers.get("Retry-After", 60))` seconds and report `True`
(modelled as `some` of the slept duration); otherwise `False` (`none`). -/
def handle_rate_limit (response : AdResponse) : Option ℕ :=
  if response.status = 429 then some (response.retryAfter.getD 60) else none

/-- The result extraction of `get_advertiser_data`
(applovin/__init__.py line 146):
`data.get("results", []) or data.get("data", []) or data.get("rows", [])`. -/
def extract_results (body : Dict) : Value :=
  pyOr (pyGetD body "results" (Value.arr []))
    (pyOr (pyGetD body "data" (Value.arr []))
      (pyGetD body "rows" (Value.arr [])))

/-- Model of `get_advertiser_data` (applovin/__init__.py lines 59–160).  `resp k` is
the oracle response to the `k`-th HTTP call of this invocation; `fuel`
bounds the 429-retry recursion, which is unbounded in the source (fuel
exhaustion stands for Python's `RecursionError`).  Returns the event trace
(calls and sleeps, in order) and either the extracted result list or the
raised error: the 429 branch sleeps and retries with identical parameters,
statuses 400/403/404 raise `API Error`, any other status ≥ 400 raises via
`raise_for_status`, and a 2xx/3xx response yields `extract_results` of its
body. -/
def get_advertiser_data (api_key start_date end_date : String)
    (resp : ℕ → AdResponse) : ℕ → ℕ → List AdEvent × Except String Value
  | 0, _ => ([], Except.error "RecursionError")
  | fuel + 1, k =>
    let params := mkParams api_key start_date end_date
    let r := resp k
    match handle_rate_limit r with
    | some w =>
      let rec_ := get_advertiser_data api_key start_date end_date resp fuel (k + 1)
      (AdEvent.call params :: AdEvent.sleep w :: rec_.1, rec_.2)
    | none =>
      if r.status = 400 ∨ r.status = 403 ∨ r.status = 404 then
        ([AdEvent.call params], Except.error "API Error")
      else if 400 ≤ r.status then
        ([AdEvent.call params], Except.error "HTTPError")
      else
        ([AdEvent.call params], Except.ok (extract_results r.body))

/-- Model of `transform_record` (applovin/__init__.py lines 163–214): the output dict
literal, every field read with `record.get(...)` (so an absent input field
becomes `None`, never an error). -/
def transform_record (record : Dict) : Dict :=
  [("day", pyGet record "day"),
   ("hour", pyGet record "hour"),
   ("campaign", pyGet record "campaign"),
   ("campaign_id_external", pyGet record "campaign_id"),
   ("ad", pyGet record "ad"),
   ("ad_id", pyGet record "ad_id"),
   ("ad_type", pyGet record "ad_type"),
   ("ad_creative_type", pyGet record "ad_creative_type"),
   ("creative_set", pyGet record "creative_set"),
   ("creative_set_id", pyGet record "creative_set_id"),
   ("impressions", pyGet record "impressions"),
   ("clicks", pyGet record "clicks"),
   ("ctr", pyGet record "ctr"),
   ("conversions", pyGet record "conversions"),
   ("cost", pyGet record "cost"),
   ("sales", pyGet record "sales"),
   ("roas_0d", pyGet record "roas_0d"),
   ("roas_7d", pyGet record "roas_7d"),
   ("chka_0d", pyGet record "chka_0d"),
   ("chka_usd_0d", pyGet record "chka_usd_0d"),
   ("cost_per_chka_0d", pyGet record "cost_per_chka_0d"),
   ("chka_7d", pyGet record "chka_7d"),
   ("chka_usd_7d", pyGet record "chka_usd_7d"),
   ("cost_per_chka_7d", pyGet record "cost_per_chka_7d"),
   ("Start_Date", pyGet record "day"),
   ("End_Date", pyGet record "day")]

/-- The rename/passthrough table of `transform_record`: input key of the raw
record paired with the output key it is stored under (the two derived
fields `Start_Date`/`End_Date` are on top of these). -/
def rename_table : List (String × String) :=
  [("day", "day"), ("hour", "hour"), ("campaign", "campaign"),
   ("campaign_id", "campaign_id_external"), ("ad", "ad"), ("ad_id", "ad_id"),
   ("ad_type", "ad_type"), ("ad_creative_type", "ad_creative_type"),
   ("creative_set", "creative_set"), ("creative_set_id", "creative_set_id"),
   ("impressions", "impressions"), ("clicks", "clicks"), ("ctr", "ctr"),
   ("conversions", "conversions"), ("cost", "cost"), ("sales", "sales"),
   ("roas_0d", "roas_0d"), ("roas_7d", "roas_7d"), ("chka_0d", "chka_0d"),
   ("chka_usd_0d", "chka_usd_0d"), ("cost_per_chka_0d", "cost_per_chka_0d"),
   ("chka_7d", "chka_7d"), ("chka_usd_7d", "chka_usd_7d"),
   ("cost_per_chka_7d", "cost_per_chka_7d")]

/-- The window computation of `advertiser_data`
(applovin/__init__.py lines 240–241), on naive datetimes modelled as
timestamps in seconds (`timedelta(days=1)` is exactly 86400 seconds):
`end_date = datetime.now() - timedelta(days=1)` and
`start_date = end_date - timedelta(days=6)`. -/
def advertiser_window (now : ℤ) : ℤ × ℤ :=
  (now - 86400 - 6 * 86400, now - 86400)

/-- The calendar day of a timestamp, as in `strftime("%Y-%m-%d")` up to the
bijection between day numbers and date strings: floor division by the
86400 seconds of a day (`/` on `ℤ` is Euclidean division, which is floor
division for a positive divisor). -/
def dateOf (t : ℤ) : ℤ := t / 86400

end Spec2Proof.Applovin

namespace Spec2Proof

open Shiphero Applovin

/-! Sample payloads used by the witness theorems. -/

/-- A sample order as `get_orders_data` extracts it: an `id`, a watermark
timestamp and a few passthrough fields, no `line_items` key (the orders
query does not request line items). -/
def sampleOrder : Dict :=
  [("id", Value.str "T3JkZXI6MQ=="),
   ("order_number", Value.str "1001"),
   ("updated_at", Value.str "2025-08-02T10:00:00+00:00")]

/-- A sample line-items oracle: every order id yields one line item and
fresh throttling numbers. -/
def sampleLineFetch : Value → Shiphero.LineResp :=
  fun _ => ⟨Value.arr [Value.obj [("sku", Value.str "SKU-1")]], 102, 898, 30⟩

/-- C1: if the orders fetch returns zero orders, or the maximum
`updated_at` among the returned orders equals the input `since` exactly,
`query_shiphero` returns an empty list and raises no exception (the result
is `Except.ok`, never `Except.error`). -/
theorem claim_C1_no_new_data_is_clean (fetch : Shiphero.OrdersResp)
    (lineFetch : Value → Shiphero.LineResp) (since : String) :
    (fetch.orders = [] →
      query_shiphero fetch lineFetch since = Except.ok ([], []))
    ∧ (∀ dates, getDates fetch.orders = Except.ok dates →
        pyMaxList dates = since →
        query_shiphero fetch lineFetch since = Except.ok ([], [])) := by
  constructor
  · intro h
    unfold query_shiphero
    rw [h]
  · intro dates hdates hmax
    unfold query_shiphero
    cases ho : fetch.orders with
    | nil => rfl
    | cons o rest =>
      rw [ho] at hdates
      rw [hdates, ← hmax]
      simp

/-- Witness for C1: a concrete fetch whose single order's `updated_at`
equals `since`; the run ends cleanly with an empty list. -/
theorem claim_C1_witness :
    query_shiphero ⟨[sampleOrder], 55, 953, 30⟩ sampleLineFetch
        "2025-08-02T10:00:00+00:00"
      = Except.ok ([], []) :=
  (claim_C1_no_new_data_is_clean ⟨[sampleOrder], 55, 953, 30⟩ sampleLineFetch
    "2025-08-02T10:00:00+00:00").2 ["2025-08-02T10:00:00+00:00"] rfl rfl

/-- C2: before each line-item call of the per-order loop, with tracked
values `(complexity, credits, increment_rate)`: when
`credits < complexity` the flow sleeps exactly
`complexity / increment_rate * 1.5` seconds before issuing the call, and
when `complexity ≤ credits` it does not sleep.  `s` is the sleep-trace
entry recorded for that call. -/
theorem claim_C2_credit_check_sleep (lineFetch : Value → Shiphero.LineResp)
    (o : Dict) (rest : List Dict) (complexity credits increment_rate : ℚ)
    (os : List Dict) (s : Option ℚ) (ss : List (Option ℚ))
    (h : lineLoop lineFetch (o :: rest) complexity credits increment_rate
      = Except.ok (os, s :: ss)) :
    (credits < complexity → s = some (complexity / increment_rate * (3 / 2)))
    ∧ (complexity ≤ credits → s = none) := by
  have hs : s = if credits < complexity
      then some (complexity / increment_rate * (3 / 2)) else none := by
    unfold lineLoop at h
    cases hid : dictGet o "id" with
    | none => rw [hid] at h; simp at h
    | some oid =>
      rw [hid] at h
      dsimp only at h
      cases hrec : lineLoop lineFetch rest (lineFetch oid).complexity
          (lineFetch oid).credits (lineFetch oid).increment_rate with
      | error e => rw [hrec] at h; simp at h
      | ok pr =>
        rw [hrec] at h
        simp at h
        exact h.2.1.symm
  constructor
  · intro hlt
    rw [hs, if_pos hlt]
  · intro hge
    rw [hs, if_neg (not_lt.mpr hge)]

/-- Witness for C2: with `credits_remaining = 50` and `complexity = 102`
(`increment_rate = 30`), the loop records a sleep of
`102 / 30 * 1.5` seconds before the line-item call. -/
theorem claim_C2_witness :
    ((50 : ℚ) < 102)
    ∧ some ((102 : ℚ) / 30 * (3 / 2)) = some ((102 : ℚ) / 30 * (3 / 2)) :=
  ⟨by norm_num,
    (claim_C2_credit_check_sleep sampleLineFetch sampleOrder [] 102 50 30
      [dictSet sampleOrder "line_items"
        (sampleLineFetch (Value.str "T3JkZXI6MQ==")).data]
      (some ((102 : ℚ) / 30 * (3 / 2))) [] (by rfl)).1 (by norm_num)⟩

/-- C4: `process_extensions` fails with a hard error when any of the three
throttling paths is absent from the extensions object, and returns the
three extracted values when all are present. -/
theorem claim_C4_throttle_extractor (ext : Value) :
    ((dpathValues ext ["throttling", "estimated_complexity"] = []
      ∨ dpathValues ext ["throttling", "user_quota", "credits_remaining"] = []
      ∨ dpathValues ext ["throttling", "user_quota", "increment_rate"] = []) →
      process_extensions ext = Except.error "IndexError")
    ∧ (∀ c cr ir,
        (dpathValues ext ["throttling", "estimated_complexity"]).head? = some c →
        (dpathValues ext ["throttling", "user_quota", "credits_remaining"]).head? = some cr →
        (dpathValues ext ["throttling", "user_quota", "increment_rate"]).head? = some ir →
        process_extensions ext = Except.ok (c, cr, ir)) := by
  constructor
  · intro h
    unfold process_extensions
    rcases h with h | h | h
    · rw [h]
      rfl
    · cases h1 : (dpathValues ext ["throttling", "estimated_complexity"]).head? with
      | none => rfl
      | some c =>
        rw [h]
        rfl
    · cases h1 : (dpathValues ext ["throttling", "estimated_complexity"]).head? with
      | none => rfl
      | some c =>
        cases h2 : (dpathValues ext
            ["throttling", "user_quota", "credits_remaining"]).head? with
        | none => rfl
        | some cr =>
          rw [h]
          rfl
  · intro c cr ir h1 h2 h3
    unfold process_extensions
    rw [h1, h2, h3]

/-- A sample extensions object carrying all three throttling paths. -/
def sampleExtensions : Value :=
  Value.obj [("throttling", Value.obj
    [("estimated_complexity", Value.num 102),
     ("user_quota", Value.obj
       [("credits_remaining", Value.num 953),
        ("increment_rate", Value.num 30)])])]

/-- Witness for C4: on a complete extensions object the extractor returns
the three throttling values. -/
theorem claim_C4_witness :
    process_extensions sampleExtensions
      = Except.ok (Value.num 102, Value.num 953, Value.num 30) :=
  (claim_C4_throttle_extractor sampleExtensions).2
    (Value.num 102) (Value.num 953) (Value.num 30) rfl rfl rfl

/-- C9: the loop's first credit check uses the fixed constant
`LINE_ITEMS_COMPLEXITY = 102`: whenever `query_shiphero` reaches the
line-item loop it enters it with that constant and with the orders
response's credits and rate, and its result does not depend on the orders
response's reported complexity; for each later iteration the tracked
triple is exactly the one reported by the immediately previous line-item
response. -/
theorem claim_C9_complexity_threading :
    Settings.LINE_ITEMS_COMPLEXITY = 102
    ∧ (∀ (fetch : Shiphero.OrdersResp) (lineFetch : Value → Shiphero.LineResp)
        (since : String) (o : Dict) (rest : List Dict) (dates : List String),
        fetch.orders = o :: rest →
        getDates fetch.orders = Except.ok dates →
        since ≠ pyMaxList dates →
        query_shiphero fetch lineFetch since
          = lineLoop lineFetch fetch.orders Settings.LINE_ITEMS_COMPLEXITY
              fetch.credits fetch.increment_rate)
    ∧ (∀ (fetch : Shiphero.OrdersResp) (lineFetch : Value → Shiphero.LineResp)
        (since : String) (c : ℚ),
        query_shiphero ⟨fetch.orders, c, fetch.credits, fetch.increment_rate⟩
            lineFetch since
          = query_shiphero fetch lineFetch since)
    ∧ (∀ (lineFetch : Value → Shiphero.LineResp) (o : Dict) (rest : List Dict)
        (c cr ir : ℚ) (oid : Value) (os : List Dict) (s : Option ℚ)
        (ss : List (Option ℚ)),
        dictGet o "id" = some oid →
        lineLoop lineFetch (o :: rest) c cr ir = Except.ok (os, s :: ss) →
        lineLoop lineFetch rest (lineFetch oid).complexity
            (lineFetch oid).credits (lineFetch oid).increment_rate
          = Except.ok (os.tail, ss)) := by
  refine ⟨rfl, ?_, ?_, ?_⟩
  · intro fetch lineFetch since o rest dates ho hdates hmax
    unfold query_shiphero
    rw [ho] at hdates ⊢
    rw [hdates]
    change (if since = pyMaxList dates then Except.ok ([], [])
      else lineLoop lineFetch (o :: rest) Settings.LINE_ITEMS_COMPLEXITY
        fetch.credits fetch.increment_rate) = _
    rw [if_neg hmax]
  · intro fetch lineFetch since c
    rfl
  · intro lineFetch o rest c cr ir oid os s ss hid h
    unfold lineLoop at h
    rw [hid] at h
    dsimp only at h
    cases hrec : lineLoop lineFetch rest (lineFetch oid).complexity
        (lineFetch oid).credits (lineFetch oid).increment_rate with
    | error e => rw [hrec] at h; simp at h
    | ok pr =>
      obtain ⟨pr1, pr2⟩ := pr
      rw [hrec] at h
      simp only [Except.ok.injEq, Prod.mk.injEq, List.cons.injEq] at h
      obtain ⟨h1, h2, h3⟩ := h
      rw [← h1, ← h3]
      rfl

/-- Witness for C9: a concrete fetch with fresh data enters the line-item
loop with the constant `LINE_ITEMS_COMPLEXITY`, not the orders query's
reported complexity 55. -/
theorem claim_C9_witness :
    query_shiphero ⟨[sampleOrder], 55, 953, 30⟩ sampleLineFetch
        "2025-08-01T00:00:00+00:00"
      = lineLoop sampleLineFetch [sampleOrder]
          Settings.LINE_ITEMS_COMPLEXITY 953 30 :=
  claim_C9_complexity_threading.2.1 ⟨[sampleOrder], 55, 953, 30⟩
    sampleLineFetch "2025-08-01T00:00:00+00:00" sampleOrder []
    ["2025-08-02T10:00:00+00:00"] rfl rfl (by decide)

/-- Key lookup in a dict skips over a binding appended at the end under a
different key. -/
theorem dictGet_append_single (d : Dict) (k new : String) (v : Value)
    (h : k ≠ new) : dictGet (d ++ [(new, v)]) k = dictGet d k := by
  induction d with
  | nil =>
    simp only [List.nil_append, dictGet]
    rw [if_neg (fun hh => h hh.symm)]
  | cons p rest ih =>
    obtain ⟨pk, pv⟩ := p
    simp only [List.cons_append, dictGet]
    split
    · rfl
    · exact ih

/-- Specification of the line-item loop: on success it returns one
enriched order per input order, in the same relative position, each equal
to the input order with `line_items` set to the sub-fetch result for its
id. -/
theorem lineLoop_ok_spec (lineFetch : Value → Shiphero.LineResp) :
    ∀ (orders : List Dict) (c cr ir : ℚ) (os : List Dict)
      (ss : List (Option ℚ)),
      lineLoop lineFetch orders c cr ir = Except.ok (os, ss) →
      os.length = orders.length ∧
      ∀ (i : ℕ) oi oid, orders[i]? = some oi → dictGet oi "id" = some oid →
        os[i]? = some (dictSet oi "line_items" (lineFetch oid).data) := by
  intro orders
  induction orders with
  | nil =>
    intro c cr ir os ss h
    unfold lineLoop at h
    simp only [Except.ok.injEq, Prod.mk.injEq] at h
    obtain ⟨h1, h2⟩ := h
    subst h1
    constructor
    · rfl
    · intro i oi oid hoi
      simp at hoi
  | cons o rest ih =>
    intro c cr ir os ss h
    unfold lineLoop at h
    cases hid : dictGet o "id" with
    | none => rw [hid] at h; simp at h
    | some oid =>
      rw [hid] at h
      dsimp only at h
      cases hrec : lineLoop lineFetch rest (lineFetch oid).complexity
          (lineFetch oid).credits (lineFetch oid).increment_rate with
      | error e => rw [hrec] at h; simp at h
      | ok pr =>
        obtain ⟨pr1, pr2⟩ := pr
        rw [hrec] at h
        simp only [Except.ok.injEq, Prod.mk.injEq] at h
        obtain ⟨h1, h2⟩ := h
        subst h1
        obtain ⟨hlen, hspec⟩ := ih (lineFetch oid).complexity
          (lineFetch oid).credits (lineFetch oid).increment_rate pr1 pr2 hrec
        constructor
        · simp [hlen]
        · intro i oi oid2 hoi hoid2
          cases i with
          | zero =>
            simp only [List.getElem?_cons_zero, Option.some.injEq] at hoi
            subst hoi
            rw [hoid2] at hid
            simp only [Option.some.injEq] at hid
            subst hid
            simp
          | succ n =>
            simp only [List.getElem?_cons_succ] at hoi ⊢
            exact hspec n oi oid2 hoi hoid2

/-- C10: when `query_shiphero` returns a non-empty list, it has one entry
per fetched order, in the same relative order; each entry equals the
fetched order with exactly the one binding `line_items` appended, holding
that order's line-item sub-fetch result, and the lookup of every other
key is unchanged. -/
theorem claim_C10_orders_enriched_in_place (fetch : Shiphero.OrdersResp)
    (lineFetch : Value → Shiphero.LineResp) (since : String)
    (os : List Dict) (ss : List (Option ℚ))
    (h : query_shiphero fetch lineFetch since = Except.ok (os, ss))
    (hne : os ≠ []) :
    os.length = fetch.orders.length ∧
    ∀ (i : ℕ) oi oid, fetch.orders[i]? = some oi → dictGet oi "id" = some oid →
      dictGet oi "line_items" = none →
      os[i]? = some (oi ++ [("line_items", (lineFetch oid).data)]) ∧
      ∀ k, k ≠ "line_items" →
        dictGet (oi ++ [("line_items", (lineFetch oid).data)]) k
          = dictGet oi k := by
  have hloop : lineLoop lineFetch fetch.orders Settings.LINE_ITEMS_COMPLEXITY
      fetch.credits fetch.increment_rate = Except.ok (os, ss) := by
    unfold query_shiphero at h
    cases ho : fetch.orders with
    | nil =>
      rw [ho] at h
      have h2 : (Except.ok ([], [])
          : Except String (List Dict × List (Option ℚ))) = Except.ok (os, ss) := h
      simp only [Except.ok.injEq, Prod.mk.injEq] at h2
      exact absurd h2.1.symm hne
    | cons o rest =>
      rw [ho] at h
      cases hdates : getDates (o :: rest) with
      | error e => rw [hdates] at h; simp at h
      | ok dates =>
        rw [hdates] at h
        dsimp only at h
        by_cases hmax : since = pyMaxList dates
        · rw [if_pos hmax] at h
          have h2 : (Except.ok ([], [])
              : Except String (List Dict × List (Option ℚ))) = Except.ok (os, ss) := h
          simp only [Except.ok.injEq, Prod.mk.injEq] at h2
          exact absurd h2.1.symm hne
        · rw [if_neg hmax] at h
          exact h
  obtain ⟨hlen, hspec⟩ := lineLoop_ok_spec lineFetch fetch.orders
    Settings.LINE_ITEMS_COMPLEXITY fetch.credits fetch.increment_rate os ss hloop
  refine ⟨hlen, ?_⟩
  intro i oi oid hoi hoid habsent
  have hset : dictSet oi "line_items" (lineFetch oid).data
      = oi ++ [("line_items", (lineFetch oid).data)] := by
    unfold dictSet
    rw [habsent]
  constructor
  · rw [hspec i oi oid hoi hoid, hset]
  · intro k hk
    exact dictGet_append_single oi k "line_items" (lineFetch oid).data hk

/-- The enriched order list a run over `sampleOrder` produces. -/
def sampleEnrichedOrders : List Dict :=
  [sampleOrder ++ [("line_items",
    Value.arr [Value.obj [("sku", Value.str "SKU-1")]])]]

/-- Witness for C10: a concrete run returns one order, equal to the
fetched order with only `line_items` appended. -/
theorem claim_C10_witness :
    sampleEnrichedOrders.length = ([sampleOrder] : List Dict).length
    ∧ sampleEnrichedOrders[0]? = some (sampleOrder
        ++ [("line_items",
          (sampleLineFetch (Value.str "T3JkZXI6MQ==")).data)]) :=
  have T := claim_C10_orders_enriched_in_place ⟨[sampleOrder], 55, 953, 30⟩
    sampleLineFetch "2025-08-01T00:00:00+00:00" sampleEnrichedOrders [none]
    (by rfl) (by simp [sampleEnrichedOrders])
  ⟨T.1, (T.2 0 sampleOrder (Value.str "T3JkZXI6MQ==") (by simp) rfl rfl).1⟩

/-- C7: the report window always ends on yesterday and starts six days
before that, covering exactly seven calendar days inclusive. -/
theorem claim_C7_window_is_trailing_seven_days (now : ℤ) :
    dateOf (advertiser_window now).2 = dateOf now - 1
    ∧ dateOf (advertiser_window now).1 = dateOf (advertiser_window now).2 - 6
    ∧ dateOf (advertiser_window now).2 - dateOf (advertiser_window now).1 + 1 = 7 := by
  unfold advertiser_window dateOf
  dsimp only
  omega

/-- C3: a 429 response with `Retry-After: 5` makes the fetch sleep exactly
5 seconds (hence at least 5) and issue exactly one retry with the very same
parameters (same `api_key`, `start`, `end`, `columns`); without the header
the sleep defaults to 60 seconds. -/
theorem claim_C3_rate_limited_retry (api_key start_date end_date : String)
    (resp : ℕ → AdResponse) (fuel : ℕ) :
    ((resp 0).status = 429 → (resp 0).retryAfter = some 5 →
      (resp 1).status = 200 →
      get_advertiser_data api_key start_date end_date resp (fuel + 2) 0
        = ([AdEvent.call (mkParams api_key start_date end_date),
            AdEvent.sleep 5,
            AdEvent.call (mkParams api_key start_date end_date)],
           Except.ok (extract_results (resp 1).body)))
    ∧ ((resp 0).status = 429 → (resp 0).retryAfter = none →
      (resp 1).status = 200 →
      get_advertiser_data api_key start_date end_date resp (fuel + 2) 0
        = ([AdEvent.call (mkParams api_key start_date end_date),
            AdEvent.sleep 60,
            AdEvent.call (mkParams api_key start_date end_date)],
           Except.ok (extract_results (resp 1).body))) := by
  constructor <;> intro h0 hra h1 <;>
    simp [get_advertiser_data, handle_rate_limit, h0, hra, h1]

/-- A sample oracle: the first call is rate limited with `Retry-After: 5`,
the retry succeeds with a one-record `results` array. -/
def sampleAdResp : ℕ → AdResponse :=
  fun k =>
    if k = 0 then ⟨429, some 5, []⟩
    else ⟨200, none,
      [("results", Value.arr [Value.obj [("day", Value.str "2025-01-01")]])]⟩

/-- Witness for C3: the concrete rate-limited run sleeps 5 seconds and
retries once with identical parameters. -/
theorem claim_C3_witness :
    get_advertiser_data "key" "2025-01-01" "2025-01-07" sampleAdResp 2 0
      = ([AdEvent.call (mkParams "key" "2025-01-01" "2025-01-07"),
          AdEvent.sleep 5,
          AdEvent.call (mkParams "key" "2025-01-01" "2025-01-07")],
         Except.ok (extract_results (sampleAdResp 1).body)) :=
  (claim_C3_rate_limited_retry "key" "2025-01-01" "2025-01-07"
    sampleAdResp 0).1 rfl rfl rfl

/-- C8: on a successful (2xx) response, the fetch accepts the result array
under `results`, `data` or `rows`, and the first of the three whose value
is non-empty wins; an empty or missing earlier key falls through to the
next. -/
theorem claim_C8_first_nonempty_result_key_wins
    (api_key start_date end_date : String) (resp : ℕ → AdResponse)
    (fuel : ℕ) (rs ds ws : List Value)
    (hlo : 200 ≤ (resp 0).status) (hhi : (resp 0).status < 300)
    (hr : pyGetD (resp 0).body "results" (Value.arr []) = Value.arr rs)
    (hd : pyGetD (resp 0).body "data" (Value.arr []) = Value.arr ds)
    (hw : pyGetD (resp 0).body "rows" (Value.arr []) = Value.arr ws) :
    get_advertiser_data api_key start_date end_date resp (fuel + 1) 0
      = ([AdEvent.call (mkParams api_key start_date end_date)],
         Except.ok (if rs.isEmpty
           then (if ds.isEmpty then Value.arr ws else Value.arr ds)
           else Value.arr rs)) := by
  have h429 : ¬((resp 0).status = 429) := by omega
  have h400 : ¬((resp 0).status = 400 ∨ (resp 0).status = 403
      ∨ (resp 0).status = 404) := by omega
  have hge : ¬(400 ≤ (resp 0).status) := by omega
  simp only [get_advertiser_data, handle_rate_limit, if_neg h429,
    if_neg h400, if_neg hge]
  unfold extract_results pyOr
  rw [hr, hd, hw]
  cases rs <;> cases ds <;> simp [truthy]

/-- Witness for C8: with an empty `results` and a missing `data` key, the
non-empty `rows` array is extracted from a 200 response. -/
theorem claim_C8_witness :
    get_advertiser_data "key" "2025-01-01" "2025-01-07"
        (fun _ => ⟨200, none,
          [("results", Value.arr []),
           ("rows", Value.arr [Value.str "row1"])]⟩) 1 0
      = ([AdEvent.call (mkParams "key" "2025-01-01" "2025-01-07")],
         Except.ok (if ([] : List Value).isEmpty
           then (if ([] : List Value).isEmpty
             then Value.arr [Value.str "row1"] else Value.arr [])
           else Value.arr [])) :=
  claim_C8_first_nonempty_result_key_wins "key" "2025-01-01" "2025-01-07"
    (fun _ => ⟨200, none,
      [("results", Value.arr []),
       ("rows", Value.arr [Value.str "row1"])]⟩) 0
    [] [] [Value.str "row1"]
    (by norm_num) (by norm_num) rfl rfl rfl

/-- Looking up any output key of the rename table in a transformed record
yields the `record.get` of the matching input key. -/
theorem transform_record_lookup (record : Dict) :
    ∀ p ∈ rename_table,
      dictGet (transform_record record) p.2 = some (pyGet record p.1) := by
  intro p hp
  fin_cases hp <;> rfl

/-- C5: for a raw record in which every input field of the
rename/passthrough table is populated, transforming and re-extracting via
the table's key names returns the original values unchanged. -/
theorem claim_C5_transform_is_lossless_roundtrip (record : Dict)
    (h : ∀ p ∈ rename_table, (dictGet record p.1).isSome = true) :
    ∀ p ∈ rename_table,
      dictGet (transform_record record) p.2 = dictGet record p.1 := by
  intro p hp
  obtain ⟨v, hv⟩ := Option.isSome_iff_exists.mp (h p hp)
  rw [transform_record_lookup record p hp, hv]
  unfold pyGet
  rw [hv]
  rfl

/-- A fully populated raw record: every input key of the rename table is
present (bound to a distinct string value). -/
def sampleFullRecord : Dict :=
  rename_table.map (fun p => (p.1, Value.str (p.1 ++ "-value")))

/-- Witness for C5: on the fully populated record, the renamed
`campaign_id` field round-trips unchanged. -/
theorem claim_C5_witness :
    dictGet (transform_record sampleFullRecord) "campaign_id_external"
      = dictGet sampleFullRecord "campaign_id" :=
  claim_C5_transform_is_lossless_roundtrip sampleFullRecord (by decide)
    ("campaign_id", "campaign_id_external") (by decide)

/-- The C6 input record: only `day` and `ad_id` are present. -/
def sampleSparseRecord : Dict :=
  [("day", Value.str "2025-01-01"), ("ad_id", Value.str "x")]

/-- C6: `Start_Date` and `End_Date` of every transformed record equal the
record's `day` field; on the sparse input `{"day": "2025-01-01",
"ad_id": "x"}` the transform totals without error, copies the two present
fields, sets both derived dates to `"2025-01-01"` and sets every other
output field to the null marker. -/
theorem claim_C6_derived_dates_and_null_defaults :
    (∀ record : Dict,
      dictGet (transform_record record) "Start_Date"
          = some (pyGet record "day")
      ∧ dictGet (transform_record record) "End_Date"
          = some (pyGet record "day"))
    ∧ transform_record sampleSparseRecord
      = [("day", Value.str "2025-01-01"), ("hour", Value.null),
         ("campaign", Value.null), ("campaign_id_external", Value.null),
         ("ad", Value.null), ("ad_id", Value.str "x"),
         ("ad_type", Value.null), ("ad_creative_type", Value.null),
         ("creative_set", Value.null), ("creative_set_id", Value.null),
         ("impressions", Value.null), ("clicks", Value.null),
         ("ctr", Value.null), ("conversions", Value.null),
         ("cost", Value.null), ("sales", Value.null),
         ("roas_0d", Value.null), ("roas_7d", Value.null),
         ("chka_0d", Value.null), ("chka_usd_0d", Value.null),
         ("cost_per_chka_0d", Value.null), ("chka_7d", Value.null),
         ("chka_usd_7d", Value.null), ("cost_per_chka_7d", Value.null),
         ("Start_Date", Value.str "2025-01-01"),
         ("End_Date", Value.str "2025-01-01")] :=
  ⟨fun _ => ⟨rfl, rfl⟩, rfl⟩

end Spec2Proof
